import Mathlib

set_option autoImplicit false

/-!
Shallow embedding of `controlplane/nested/controllers/controller_util.go`
from the cluster-api-provider-nested repository, together with proofs about
the manifest generation and reconciliation pipeline it implements
(template resolution, parameter substitution, override merging,
peer-bootstrap argument synthesis, ownership binding, and the
create-endpoint-then-workload write sequence).

External collaborators (the object store `cli`, the byte fetcher
`fetchTemplate`/openuri, and the YAML decoder `yamlToObject`) are passed in
as explicit function parameters, so every run of the pipeline is a pure
computation over the supplied collaborator behaviour.
-/

/-- The component kinds dispatched on by the pipeline
(`controlplanev1.APIServer`, `controlplanev1.Etcd`,
`controlplanev1.ControllerManager`). -/
inductive ComponentKind where
  | APIServer
  | Etcd
  | ControllerManager
deriving DecidableEq

/-- Modelled from the spec: the string value carried by each ComponentKind
constant (declared in `api/v1alpha4`, which is not under `src/`); used as the
owner reference's kind via `GroupVersion.WithKind(string(ncKind))`. -/
def ComponentKind.str : ComponentKind → String
  | ComponentKind.APIServer => "NestedAPIServer"
  | ComponentKind.Etcd => "NestedEtcd"
  | ComponentKind.ControllerManager => "NestedControllerManager"

/-- `metav1.ObjectMeta`, restricted to the fields the pipeline reads
(`GetName`, `GetNamespace`, `GetUID`).  `nspace` models `Namespace`. -/
structure ObjectMeta where
  name : String
  nspace : String
  uid : String
deriving DecidableEq

/-- `metav1.OwnerReference`, restricted to the fields set by
`metav1.NewControllerRef`. -/
structure OwnerReference where
  apiVersion : String
  kind : String
  name : String
  uid : String
  controller : Bool
  blockOwnerDeletion : Bool
deriving DecidableEq

/-- The string form of `controlplanev1.GroupVersion`. -/
def GroupVersionString : String := "controlplane.cluster.x-k8s.io/v1alpha4"

/-- `metav1.NewControllerRef(owner, gvk)`: builds the single controller owner
reference from the owning resource's identity (library collaborator). -/
def NewControllerRef (owner : ObjectMeta) (kind : String) : OwnerReference :=
  { apiVersion := GroupVersionString
    kind := kind
    name := owner.name
    uid := owner.uid
    controller := true
    blockOwnerDeletion := true }

/-- `corev1.ResourceRequirements`: requests/limits maps
(resource name to quantity), modelled as association lists. -/
structure ResourceRequirements where
  limits : List (String × String)
  requests : List (String × String)
deriving DecidableEq

/-- A container of the StatefulSet's pod template, restricted to the fields
the pipeline touches (`Resources`, `Args`) plus `image` as a frame field. -/
structure Container where
  image : String
  args : List String
  resources : ResourceRequirements
deriving DecidableEq

/-- `appsv1.StatefulSet`, restricted to the fields the pipeline touches:
`Spec.Replicas` (a nullable pointer, hence `Option`),
`Spec.Template.Spec.Containers`, and the object's owner references. -/
structure StatefulSet where
  replicas : Option Int
  containers : List Container
  ownerReferences : List OwnerReference
deriving DecidableEq

/-- `corev1.Service`, restricted to the field the pipeline touches
(owner references). -/
structure Service where
  ownerReferences : List OwnerReference
deriving DecidableEq

/-- `controlplanev1.NestedComponentSpec`: version/channel select a template
source, replicas and resources are the caller's overrides, patches are held
but never applied. -/
structure NestedComponentSpec where
  version : String
  channel : String
  replicas : Int
  resources : ResourceRequirements
  patches : List String
deriving DecidableEq

/-- `sts.SetOwnerReferences(refs)`: wholesale replacement of the owner
reference list. -/
def StatefulSet.setOwnerReferences (s : StatefulSet)
    (refs : List OwnerReference) : StatefulSet :=
  { s with ownerReferences := refs }

/-- `svc.SetOwnerReferences(refs)`: wholesale replacement of the owner
reference list. -/
def Service.setOwnerReferences (s : Service)
    (refs : List OwnerReference) : Service :=
  { s with ownerReferences := refs }

/-- Errors surfaced by the pipeline: the object store's AlreadyExists
condition is kept distinct so its handling can be observed; every other
error is a message string (as produced by `fmt.Errorf`). -/
inductive Err where
  | alreadyExists
  | text (msg : String)
deriving DecidableEq

/-- Rendering of an error value to the string `fmt.Errorf`'s `%v` verb
would print. -/
def Err.render : Err → String
  | Err.alreadyExists => "already exists"
  | Err.text m => m

/-- Outcome of running a piece of Go code: a normal return value, a returned
`error`, or a `panic` unwinding the stack.  Panics are kept distinct from
errors because the source uses both. -/
inductive GoResult (α : Type) where
  | ok (a : α)
  | err (e : Err)
  | panicked (msg : String)
deriving DecidableEq

/-- Whether a `GoResult` is a returned (recoverable) error, as opposed to a
normal return or a panic. -/
def GoResult.isErr {α : Type} : GoResult α → Bool
  | GoResult.err _ => true
  | _ => false

/-! ### TemplateRenderer: `substituteTemplate` (lines 226-239)

`substituteTemplate` drives Go's `text/template` with
`Option("missingkey=zero")` over a `map[string]string` context.  The
template fragments used by this repository only contain plain field
actions of the form `\x7b\x7b.name\x7d\x7d`, so the engine is embedded for
exactly that action syntax: parsing splits the text into literal and
field segments (failing on malformed actions, as `Parse` does), and
execution substitutes each field from the context, with a missing key
producing the string zero value `""`. -/

/-- A parsed template node: literal text or a field action. -/
inductive Seg where
  | lit (s : String)
  | var (key : String)
deriving DecidableEq

/-- Characters permitted in a field name of a template action. -/
def isIdentChar (c : Char) : Bool := c.isAlphanum || c = '_'

/-- Splits a character list into its longest identifier prefix and the
rest. -/
def takeIdent : List Char → List Char × List Char
  | [] => ([], [])
  | c :: cs =>
    if isIdentChar c then
      match takeIdent cs with
      | (i, r) => (c :: i, r)
    else ([], c :: cs)

/-- Fuel-indexed parser for template text: `\x7b\x7b.name\x7d\x7d` becomes a
field segment, any other character is literal text, and a malformed action
is a parse error (mirroring `template.Parse`). -/
def parseTemplateAux : Nat → List Char → Except String (List Seg)
  | 0, _ => Except.error "template: test: parse limit exceeded"
  | _ + 1, [] => Except.ok []
  | fuel + 1, '\x7b' :: '\x7b' :: rest =>
    match rest with
    | '.' :: rest2 =>
      match takeIdent rest2 with
      | (ident, rest3) =>
        match rest3 with
        | '\x7d' :: '\x7d' :: rest4 =>
          if ident.isEmpty then
            Except.error "template: test: unexpected token in operand"
          else
            match parseTemplateAux fuel rest4 with
            | Except.error e => Except.error e
            | Except.ok segs => Except.ok (Seg.var (String.mk ident) :: segs)
        | _ => Except.error "template: test: bad character in action"
    | _ => Except.error "template: test: unexpected token in action"
  | fuel + 1, c :: rest =>
    match parseTemplateAux fuel rest with
    | Except.error e => Except.error e
    | Except.ok segs => Except.ok (Seg.lit (String.mk [c]) :: segs)

/-- Parses a template text (fuel bounded by the text length, which every
step of the parser consumes at least one character of). -/
def parseTemplate (s : List Char) : Except String (List Seg) :=
  parseTemplateAux (s.length + 1) s

/-- Lookup in the `map[string]string` template context. -/
def lookupCtx (ctx : List (String × String)) (k : String) : Option String :=
  match ctx with
  | [] => none
  | (a, b) :: rest => if a = k then some b else lookupCtx rest k

/-- Execution of one parsed segment under `missingkey=zero`: a field whose
key is absent from the context renders as the zero value `""`. -/
def renderSeg (ctx : List (String × String)) : Seg → String
  | Seg.lit s => s
  | Seg.var k => (lookupCtx ctx k).getD ""

/-- `t.Execute(writer, context)`: renders every parsed segment and
concatenates the output. -/
def templateExecute (ctx : List (String × String)) (segs : List Seg) : String :=
  String.join (segs.map (renderSeg ctx))

/-- `substituteTemplate(context, tmpl)` (lines 226-239): parse with
`missingkey=zero`, then execute into a buffer. -/
def substituteTemplate (context : List (String × String)) (tmpl : String) :
    Except String String :=
  match parseTemplate tmpl.data with
  | Except.error e => Except.error e
  | Except.ok t => Except.ok (templateExecute context t)

/-- Whether an `Except` value is a success. -/
def exceptIsOk {ε α : Type} : Except ε α → Bool
  | Except.ok _ => true
  | Except.error _ => false

/-! ### TemplateSource: URL resolution and `getTemplateArgs` -/

/-- Modelled from the spec: fixed default template URL suffix for the
API-server workload (constant declared outside `src/`). -/
def defaultKASStatefulSetURL : String := "/statefulset/apiserver.yaml"

/-- Modelled from the spec: fixed default template URL suffix for the
key-value-store workload (constant declared outside `src/`). -/
def defaultEtcdStatefulSetURL : String := "/statefulset/etcd.yaml"

/-- Modelled from the spec: fixed default template URL suffix for the
controller-manager workload (constant declared outside `src/`). -/
def defaultKCMStatefulSetURL : String := "/statefulset/controller-manager.yaml"

/-- Modelled from the spec: fixed default template URL suffix for the
API-server endpoint (constant declared outside `src/`). -/
def defaultKASServiceURL : String := "/service/apiserver.yaml"

/-- Modelled from the spec: fixed default template URL suffix for the
key-value-store endpoint (constant declared outside `src/`). -/
def defaultEtcdServiceURL : String := "/service/etcd.yaml"

/-- `getTemplateArgs(ncMeta, controlPlaneName, clusterName)`
(lines 206-213): the four-entry rendering context. -/
def getTemplateArgs (ncMeta : ObjectMeta)
    (controlPlaneName clusterName : String) : List (String × String) :=
  [("componentName", ncMeta.name),
   ("componentNamespace", ncMeta.nspace),
   ("clusterName", clusterName),
   ("controlPlaneName", controlPlaneName)]

/-- The version/channel dispatch and kind switch of `genStatefulSetObject`
(lines 142-158): both fields empty selects the per-kind default URL; the
kind switch is exhaustive over the closed `ComponentKind` (its Go
`default: panic("Unreachable")` arm is unreachable here); otherwise the
code panics with `NOT IMPLEMENT YET`. -/
def resolveStatefulSetTemplateURL (templatePath : String)
    (ncSpec : NestedComponentSpec) (ncKind : ComponentKind) : GoResult String :=
  if ncSpec.version = "" ∧ ncSpec.channel = "" then
    match ncKind with
    | ComponentKind.APIServer =>
      GoResult.ok (templatePath ++ defaultKASStatefulSetURL)
    | ComponentKind.Etcd =>
      GoResult.ok (templatePath ++ defaultEtcdStatefulSetURL)
    | ComponentKind.ControllerManager =>
      GoResult.ok (templatePath ++ defaultKCMStatefulSetURL)
  else
    GoResult.panicked "NOT IMPLEMENT YET"

/-- The version/channel dispatch and kind switch of `genServiceObject`
(lines 100-112): only the API-server and key-value-store kinds have an
endpoint template; the controller-manager kind reaches the
`panic("Unreachable")` arm. -/
def resolveServiceTemplateURL (templatePath : String)
    (ncSpec : NestedComponentSpec) (ncKind : ComponentKind) : GoResult String :=
  if ncSpec.version = "" ∧ ncSpec.channel = "" then
    match ncKind with
    | ComponentKind.APIServer =>
      GoResult.ok (templatePath ++ defaultKASServiceURL)
    | ComponentKind.Etcd =>
      GoResult.ok (templatePath ++ defaultEtcdServiceURL)
    | ComponentKind.ControllerManager =>
      GoResult.panicked "Unreachable"
  else
    GoResult.panicked "NOT IMPLEMENT YET"

/-! ### OverrideMerger: steps 5 and 6 of `genStatefulSetObject` -/

/-- Modelled from the spec: `genInitialClusterArgs(replicas, stsName,
svcName, svcNamespace)` (declared outside `src/`) computes the bootstrap
peer list as `replicas` entries named `stsName-i` for `i` in
`[0, replicas)`, each joined with the cluster's internal DNS suffix and
the etcd peer port, and the entries joined by commas. -/
def genInitialClusterArgs (replicas : Nat)
    (stsName svcName svcNamespace : String) : String :=
  String.intercalate ","
    ((List.range replicas).map fun i =>
      stsName ++ "-" ++ toString i ++ "=https://" ++ stsName ++ "-" ++
        toString i ++ "." ++ svcName ++ "." ++ svcNamespace ++ ".svc:2380")

/-- Step 5a of `genStatefulSetObject` (lines 182-185): overwrite every
container's resources with `ncSpec.Resources`, unconditionally. -/
def applyResources (ncSpec : NestedComponentSpec) (ncSts : StatefulSet) :
    StatefulSet :=
  { ncSts with
    containers := ncSts.containers.map fun c =>
      { c with resources := ncSpec.resources } }

/-- Step 5b of `genStatefulSetObject` (lines 186-188): point the replica
count at `ncSpec.Replicas` exactly when it is nonzero. -/
def applyReplicas (ncSpec : NestedComponentSpec) (ncSts : StatefulSet) :
    StatefulSet :=
  if ncSpec.replicas ≠ 0 then { ncSts with replicas := some ncSpec.replicas }
  else ncSts

/-- Step 6 of `genStatefulSetObject` (lines 193-200): for the
key-value-store kind, append `--initial-cluster` and its value to the
first container's argument list (`Containers[0]` on an empty slice is a
Go index-out-of-range panic). -/
def applyInitialCluster (ncKind : ComponentKind)
    (clusterName nspace : String) (ncSts : StatefulSet) :
    GoResult StatefulSet :=
  if ncKind = ComponentKind.Etcd then
    match ncSts.containers with
    | [] => GoResult.panicked "runtime error: index out of range"
    | c :: rest =>
      GoResult.ok
        { ncSts with
          containers :=
            { c with
              args := c.args ++
                ["--initial-cluster",
                 genInitialClusterArgs 1 clusterName clusterName nspace] }
              :: rest }
  else GoResult.ok ncSts

/-- The merge phase of `genStatefulSetObject` (steps 5 and 6,
lines 180-200), applied to the decoded template StatefulSet. -/
def genStatefulSetMerge (ncSpec : NestedComponentSpec)
    (ncKind : ComponentKind) (clusterName nspace : String)
    (ncSts : StatefulSet) : GoResult StatefulSet :=
  applyInitialCluster ncKind clusterName nspace
    (applyReplicas ncSpec (applyResources ncSpec ncSts))

/-! ### `genStatefulSetObject` and `genServiceObject` (lines 93-204)

The byte fetcher (`fetchTemplate`, line 241-255, network I/O) and the YAML
decoder (`yamlToObject`, lines 215-224, the platform scheme's
deserializer) are external collaborators, passed in as functions. -/

/-- `genStatefulSetObject` (lines 134-204): resolve the template URL,
fetch, substitute, decode, then merge the caller's overrides and the
bootstrap arguments. -/
def genStatefulSetObject (templatePath : String) (ncMeta : ObjectMeta)
    (ncSpec : NestedComponentSpec) (ncKind : ComponentKind)
    (controlPlaneName clusterName : String)
    (fetch : String → Except String String)
    (decodeSts : String → Except String StatefulSet) :
    GoResult StatefulSet :=
  match resolveStatefulSetTemplateURL templatePath ncSpec ncKind with
  | GoResult.panicked m => GoResult.panicked m
  | GoResult.err e => GoResult.err e
  | GoResult.ok templateURL =>
    match fetch templateURL with
    | Except.error e =>
      GoResult.err (Err.text
        ("fail to fetch the default template for the " ++ ncKind.str ++
          " StatefulSet: " ++ e))
    | Except.ok stsTmpl =>
      match substituteTemplate
          (getTemplateArgs ncMeta controlPlaneName clusterName) stsTmpl with
      | Except.error e =>
        GoResult.err (Err.text
          ("fail to substitute the default template for the " ++
            ncKind.str ++ " StatefulSet: " ++ e))
      | Except.ok stsStr =>
        match decodeSts stsStr with
        | Except.error e =>
          GoResult.err (Err.text
            ("fail to convert yaml file to StatefulSet: " ++ e))
        | Except.ok ncSts =>
          genStatefulSetMerge ncSpec ncKind clusterName ncMeta.nspace ncSts

/-- `genServiceObject` (lines 93-132): resolve the endpoint template URL,
fetch, substitute, decode. -/
def genServiceObject (templatePath : String) (ncMeta : ObjectMeta)
    (ncSpec : NestedComponentSpec) (ncKind : ComponentKind)
    (controlPlaneName clusterName : String)
    (fetch : String → Except String String)
    (decodeSvc : String → Except String Service) :
    GoResult Service :=
  match resolveServiceTemplateURL templatePath ncSpec ncKind with
  | GoResult.panicked m => GoResult.panicked m
  | GoResult.err e => GoResult.err e
  | GoResult.ok templateURL =>
    match fetch templateURL with
    | Except.error e =>
      GoResult.err (Err.text
        ("fail to fetch the default template for the " ++ ncKind.str ++
          " service: " ++ e))
    | Except.ok svcTmpl =>
      match substituteTemplate
          (getTemplateArgs ncMeta controlPlaneName clusterName) svcTmpl with
      | Except.error e =>
        GoResult.err (Err.text
          ("fail to substitute the default template for the nestedetcd " ++
            "Service: " ++ e))
      | Except.ok svcStr =>
        match decodeSvc svcStr with
        | Except.error e =>
          GoResult.err (Err.text ("fail to convert yaml file to Serivce: " ++ e))
        | Except.ok svc => GoResult.ok svc

/-! ### ReconcileEngine: `createNestedComponentSts` (lines 46-91) -/

/-- A create call issued to the object store (`cli.Create`), carrying the
object handed over. -/
inductive StoreWrite where
  | svc (s : Service)
  | sts (s : StatefulSet)
deriving DecidableEq

/-- The owner references carried by the object of a store write. -/
def StoreWrite.ownerRefs : StoreWrite → List OwnerReference
  | StoreWrite.svc s => s.ownerReferences
  | StoreWrite.sts s => s.ownerReferences

/-- Whether a store write hands over a Service. -/
def StoreWrite.isSvc : StoreWrite → Bool
  | StoreWrite.svc _ => true
  | StoreWrite.sts _ => false

/-- `createNestedComponentSts` (lines 46-91): build the controller owner
reference; panic when both version and channel are set; generate the
StatefulSet; for every kind but the controller manager, generate the
Service, bind its ownership and create it first; then bind the
StatefulSet's ownership and create it.  `createSvc`/`createSts` are the
object store's responses to `cli.Create` (`none` is success); the returned
list records every create call issued, in order. -/
def createNestedComponentSts (ncMeta : ObjectMeta)
    (ncSpec : NestedComponentSpec) (ncKind : ComponentKind)
    (controlPlaneName clusterName templatePath : String)
    (fetch : String → Except String String)
    (decodeSts : String → Except String StatefulSet)
    (decodeSvc : String → Except String Service)
    (createSvc : Service → Option Err)
    (createSts : StatefulSet → Option Err) :
    List StoreWrite × GoResult Unit :=
  if ncSpec.version ≠ "" ∧ ncSpec.channel ≠ "" then
    ([], GoResult.panicked "NOT IMPLEMENT YET")
  else
    match genStatefulSetObject templatePath ncMeta ncSpec ncKind
        controlPlaneName clusterName fetch decodeSts with
    | GoResult.panicked m => ([], GoResult.panicked m)
    | GoResult.err e =>
      ([], GoResult.err (Err.text
        ("fail to generate the Statefulset object: " ++ e.render)))
    | GoResult.ok ncSts =>
      if ncKind ≠ ComponentKind.ControllerManager then
        match genServiceObject templatePath ncMeta ncSpec ncKind
            controlPlaneName clusterName fetch decodeSvc with
        | GoResult.panicked m => ([], GoResult.panicked m)
        | GoResult.err e =>
          ([], GoResult.err (Err.text
            ("fail to generate the Service object: " ++ e.render)))
        | GoResult.ok ncSvc0 =>
          match createSvc (ncSvc0.setOwnerReferences
              [NewControllerRef ncMeta ncKind.str]) with
          | some e =>
            ([StoreWrite.svc (ncSvc0.setOwnerReferences
                [NewControllerRef ncMeta ncKind.str])], GoResult.err e)
          | none =>
            ([StoreWrite.svc (ncSvc0.setOwnerReferences
                [NewControllerRef ncMeta ncKind.str]),
              StoreWrite.sts (ncSts.setOwnerReferences
                [NewControllerRef ncMeta ncKind.str])],
             match createSts (ncSts.setOwnerReferences
                 [NewControllerRef ncMeta ncKind.str]) with
             | some e => GoResult.err e
             | none => GoResult.ok ())
      else
        ([StoreWrite.sts (ncSts.setOwnerReferences
            [NewControllerRef ncMeta ncKind.str])],
         match createSts (ncSts.setOwnerReferences
             [NewControllerRef ncMeta ncKind.str]) with
         | some e => GoResult.err e
         | none => GoResult.ok ())

/-! ### Helper lemmas shared by the claim theorems -/

/-- The resources overwrite (lines 182-185) does not touch the replica
count. -/
theorem applyResources_replicas (ncSpec : NestedComponentSpec)
    (sts : StatefulSet) : (applyResources ncSpec sts).replicas = sts.replicas :=
  rfl

/-- The replicas override (lines 186-188) does not touch the container
list. -/
theorem applyReplicas_containers (ncSpec : NestedComponentSpec)
    (sts : StatefulSet) :
    (applyReplicas ncSpec sts).containers = sts.containers := by
  unfold applyReplicas
  split <;> rfl

/-- A successful bootstrap-argument step (lines 193-200) does not touch the
replica count. -/
theorem applyInitialCluster_ok_replicas (ncKind : ComponentKind)
    (clusterName nspace : String) (sts sts' : StatefulSet)
    (h : applyInitialCluster ncKind clusterName nspace sts =
      GoResult.ok sts') :
    sts'.replicas = sts.replicas := by
  unfold applyInitialCluster at h
  split at h
  · rcases hc : sts.containers with _ | ⟨c, rest⟩ <;> rw [hc] at h
    · exact absurd h (by simp)
    · simp only [GoResult.ok.injEq] at h
      subst h
      rfl
  · simp only [GoResult.ok.injEq] at h
    subst h
    rfl

/-- A successful bootstrap-argument step does not touch any container's
resources. -/
theorem applyInitialCluster_ok_resources (ncKind : ComponentKind)
    (clusterName nspace : String) (sts sts' : StatefulSet)
    (h : applyInitialCluster ncKind clusterName nspace sts =
      GoResult.ok sts') :
    sts'.containers.map Container.resources =
      sts.containers.map Container.resources := by
  unfold applyInitialCluster at h
  split at h
  · rcases hc : sts.containers with _ | ⟨c, rest⟩ <;> rw [hc] at h
    · exact absurd h (by simp)
    · simp only [GoResult.ok.injEq] at h
      subst h
      simp [hc]
  · simp only [GoResult.ok.injEq] at h
    subst h
    rfl

/-- On a StatefulSet whose container list is a known cons cell, the
bootstrap-argument step for the key-value-store kind appends the
`--initial-cluster` flag and its value to the first container. -/
theorem applyInitialCluster_cons (clusterName nspace : String)
    (sts : StatefulSet) (c : Container) (rest : List Container)
    (hc : sts.containers = c :: rest) :
    applyInitialCluster ComponentKind.Etcd clusterName nspace sts =
      GoResult.ok
        { sts with containers :=
          { c with args := c.args ++
            ["--initial-cluster",
             genInitialClusterArgs 1 clusterName clusterName nspace] }
            :: rest } := by
  rcases sts with ⟨rep, conts, orefs⟩
  simp only at hc
  subst hc
  rfl

/-- The single bootstrap peer entry generated at seed count 1 is never the
flag name itself (their lengths differ). -/
theorem genInitialClusterArgs_one_ne_flag (s v nsp : String) :
    genInitialClusterArgs 1 s v nsp ≠ "--initial-cluster" := by
  intro h
  have h0 : genInitialClusterArgs 1 s v nsp =
      s ++ "-" ++ "0" ++ "=https://" ++ s ++ "-" ++ "0" ++ "." ++ v ++ "." ++
        nsp ++ ".svc:2380" := rfl
  rw [h0] at h
  have hl := congrArg String.length h
  simp only [String.length_append] at hl
  have h2 : s.length + 1 + 1 + 9 + s.length + 1 + 1 + 1 + v.length + 1 +
      nsp.length + 9 = 17 := hl
  omega

/-! ### Claim theorems -/

/-- C3: For every template text and every context, rendering succeeds or
fails independently of the supplied context (so it fails only on malformed
template syntax, never on the context); a parsed template always renders by
substituting each field from the context, where a field whose key is absent
from the context renders as the empty string; and the concrete template
`ns=\x7b\x7b.componentNamespace\x7d\x7d` rendered under the empty context
yields `ns=`. -/
theorem substituteTemplate_missingkey_zero :
    (∀ ctx ctx' tmpl, exceptIsOk (substituteTemplate ctx tmpl) =
        exceptIsOk (substituteTemplate ctx' tmpl)) ∧
    (∀ ctx tmpl t, parseTemplate tmpl.data = Except.ok t →
        substituteTemplate ctx tmpl = Except.ok (templateExecute ctx t)) ∧
    (∀ ctx k, lookupCtx ctx k = none → renderSeg ctx (Seg.var k) = "") ∧
    substituteTemplate [] "ns=\x7b\x7b.componentNamespace\x7d\x7d" =
      Except.ok "ns=" := by
  refine ⟨?_, ?_, ?_, ?_⟩
  · intro ctx ctx' tmpl
    unfold substituteTemplate
    cases parseTemplate tmpl.data <;> rfl
  · intro ctx tmpl t h
    unfold substituteTemplate
    rw [h]
  · intro ctx k h
    simp [renderSeg, h]
  · rfl

/-- Witness for C3: a missing key renders as the empty string on a concrete
context, and a concrete well-formed template renders for a concrete
context. -/
theorem substituteTemplate_missingkey_zero_witness :
    renderSeg [("clusterName", "demo")] (Seg.var "componentNamespace") = "" ∧
    substituteTemplate [("clusterName", "demo")] "a" =
      Except.ok (templateExecute [("clusterName", "demo")] [Seg.lit "a"]) :=
  ⟨substituteTemplate_missingkey_zero.2.2.1 [("clusterName", "demo")]
      "componentNamespace" rfl,
   substituteTemplate_missingkey_zero.2.1 [("clusterName", "demo")] "a"
      [Seg.lit "a"] rfl⟩

/-- C1: For every ComponentSpec, the merge phase of `genStatefulSetObject`
sets the StatefulSet's replica count to `ncSpec.replicas` exactly when that
field is nonzero, and leaves the decoded template's replica count unchanged
when it is zero, so a zero spec never introduces a zero replica count. -/
theorem genStatefulSetMerge_replicas (ncSpec : NestedComponentSpec)
    (ncKind : ComponentKind) (clusterName nspace : String)
    (sts sts' : StatefulSet)
    (h : genStatefulSetMerge ncSpec ncKind clusterName nspace sts =
      GoResult.ok sts') :
    (ncSpec.replicas = 0 → sts'.replicas = sts.replicas) ∧
    (ncSpec.replicas ≠ 0 → sts'.replicas = some ncSpec.replicas) ∧
    (ncSpec.replicas = 0 → sts.replicas ≠ some 0 →
      sts'.replicas ≠ some 0) := by
  have h1 : sts'.replicas =
      (applyReplicas ncSpec (applyResources ncSpec sts)).replicas :=
    applyInitialCluster_ok_replicas _ _ _ _ _ h
  refine ⟨?_, ?_, ?_⟩
  · intro h0
    rw [h1]
    simp [applyReplicas, h0, applyResources]
  · intro h0
    rw [h1]
    simp [applyReplicas, h0]
  · intro h0 hne
    rw [h1]
    simp [applyReplicas, h0, applyResources]
    exact hne

/-- A concrete resource-bounds map used by witnesses. -/
def cRes : ResourceRequirements :=
  { limits := [("cpu", "500m")], requests := [] }

/-- A concrete ComponentSpec with a nonzero replica override. -/
def cSpec3 : NestedComponentSpec :=
  { version := "", channel := "", replicas := 3, resources := cRes,
    patches := [] }

/-- A concrete ComponentSpec with no overrides set at all. -/
def cSpec0 : NestedComponentSpec :=
  { version := "", channel := "",  replicas := 0,
    resources := { limits := [], requests := [] }, patches := [] }

/-- A concrete decoded template StatefulSet: one container with its own
default resources and arguments, and a template default replica count. -/
def cTemplateSts : StatefulSet :=
  { replicas := some 1,
    containers :=
      [{ image := "etcd",
         args := ["--data-dir=/var/lib/etcd"],
         resources := { limits := [("memory", "1Gi")], requests := [] } }],
    ownerReferences := [] }

/-- Witness for C1: at a ComponentSpec with replicas 3, the merged
StatefulSet's replica count is exactly 3. -/
theorem genStatefulSetMerge_replicas_witness :
    (applyReplicas cSpec3 (applyResources cSpec3 cTemplateSts)).replicas =
      some 3 :=
  (genStatefulSetMerge_replicas cSpec3 ComponentKind.ControllerManager
    "demo" "ns1" cTemplateSts
    (applyReplicas cSpec3 (applyResources cSpec3 cTemplateSts)) rfl).2.1
    (by decide)

/-- C6: For every resource-bounds map supplied in the ComponentSpec, the
merge sets every container's resources in the merged StatefulSet to that
exact map, with no per-container differentiation, and re-running the
resource-bounds merge step (lines 182-185) with the same bounds yields the
same descriptor as running it once. -/
theorem genStatefulSetMerge_resources_uniform :
    (∀ (ncSpec : NestedComponentSpec) (ncKind : ComponentKind)
        (clusterName nspace : String) (sts sts' : StatefulSet),
        genStatefulSetMerge ncSpec ncKind clusterName nspace sts =
          GoResult.ok sts' →
        ∀ c ∈ sts'.containers, c.resources = ncSpec.resources) ∧
    (∀ (ncSpec : NestedComponentSpec) (sts : StatefulSet),
        applyResources ncSpec (applyResources ncSpec sts) =
          applyResources ncSpec sts) := by
  constructor
  · intro ncSpec ncKind clusterName nspace sts sts' h c hc
    have hm : sts'.containers.map Container.resources =
        (applyReplicas ncSpec (applyResources ncSpec sts)).containers.map
          Container.resources :=
      applyInitialCluster_ok_resources _ _ _ _ _ h
    rw [applyReplicas_containers] at hm
    have hm2 : sts'.containers.map Container.resources =
        sts.containers.map fun _ => ncSpec.resources := by
      rw [hm]
      show (sts.containers.map fun c =>
          { c with resources := ncSpec.resources }).map Container.resources =
        sts.containers.map fun _ => ncSpec.resources
      rw [List.map_map]
      rfl
    have hcm : c.resources ∈ sts'.containers.map Container.resources :=
      List.mem_map_of_mem _ hc
    rw [hm2] at hcm
    rcases List.mem_map.1 hcm with ⟨x, _, he⟩
    exact he.symm
  · intro ncSpec sts
    rcases sts with ⟨rep, conts, orefs⟩
    simp [applyResources, List.map_map]

/-- Witness for C6: on the concrete merge of the etcd kind, the first
container's resources equal the supplied bounds, and the resource step is
idempotent at a concrete input. -/
theorem genStatefulSetMerge_resources_uniform_witness :
    ({ image := "etcd",
       args := ["--data-dir=/var/lib/etcd", "--initial-cluster",
         genInitialClusterArgs 1 "demo" "demo" "ns1"],
       resources := cRes } : Container).resources = cRes ∧
    applyResources cSpec3 (applyResources cSpec3 cTemplateSts) =
      applyResources cSpec3 cTemplateSts := by
  constructor
  · exact genStatefulSetMerge_resources_uniform.1 cSpec3 ComponentKind.Etcd
      "demo" "ns1" cTemplateSts _ rfl _ (List.mem_singleton.2 rfl)
  · exact genStatefulSetMerge_resources_uniform.2 cSpec3 cTemplateSts

/-- C10: For every ComponentSpec, including one whose resource bounds are
entirely absent (empty), the resources merge step (lines 182-185)
unconditionally overwrites every container's resources with
`ncSpec.resources`; a template container whose own resource defaults differ
from the spec's bounds does not survive into the merged list; and the
containers' arguments and images are untouched by this step. -/
theorem applyResources_unconditional (ncSpec : NestedComponentSpec)
    (sts : StatefulSet) :
    (∀ c ∈ (applyResources ncSpec sts).containers,
        c.resources = ncSpec.resources) ∧
    (∀ c ∈ sts.containers, c.resources ≠ ncSpec.resources →
        c ∉ (applyResources ncSpec sts).containers) ∧
    (applyResources ncSpec sts).containers.map Container.args =
      sts.containers.map Container.args ∧
    (applyResources ncSpec sts).containers.map Container.image =
      sts.containers.map Container.image := by
  refine ⟨?_, ?_, ?_, ?_⟩
  · intro c hc
    rcases List.mem_map.1 hc with ⟨x, _, he⟩
    rw [← he]
  · intro c _ hne hmem
    rcases List.mem_map.1 hmem with ⟨x, _, he⟩
    exact hne (by rw [← he])
  · simp [applyResources, List.map_map]
  · simp [applyResources, List.map_map]

/-- Witness for C10: merging the empty bounds of `cSpec0` still overwrites
the template's own nonempty default, which does not survive. -/
theorem applyResources_unconditional_witness :
    ({ image := "etcd",
       args := ["--data-dir=/var/lib/etcd"],
       resources := { limits := [("memory", "1Gi")], requests := [] } } :
        Container) ∉ (applyResources cSpec0 cTemplateSts).containers ∧
    ∀ c ∈ (applyResources cSpec0 cTemplateSts).containers,
      c.resources = cSpec0.resources := by
  constructor
  · exact (applyResources_unconditional cSpec0 cTemplateSts).2.1 _
      (List.mem_singleton.2 rfl) (by decide)
  · exact (applyResources_unconditional cSpec0 cTemplateSts).1

/-- C4: For the key-value-store (etcd) kind, merging appends the
`--initial-cluster` flag and its value to the first container's arguments;
when the template's first container did not already carry the flag, the
merged argument list contains it exactly once, its value being the
bootstrap peer list of `clusterName-i` names for `i` below the fixed seed
count (1 at this call site), joined by commas; and for every other kind no
container's argument list is modified. -/
theorem genStatefulSetMerge_initial_cluster :
    (∀ (ncSpec : NestedComponentSpec) (clusterName nspace : String)
        (sts sts' : StatefulSet) (c : Container) (rest : List Container),
        sts.containers = c :: rest →
        "--initial-cluster" ∉ c.args →
        genStatefulSetMerge ncSpec ComponentKind.Etcd clusterName nspace
          sts = GoResult.ok sts' →
        ∃ c2 rest2, sts'.containers = c2 :: rest2 ∧
          c2.args = c.args ++
            ["--initial-cluster",
             genInitialClusterArgs 1 clusterName clusterName nspace] ∧
          c2.args.count "--initial-cluster" = 1) ∧
    (∀ (n : Nat) (s v nsp : String), genInitialClusterArgs n s v nsp =
        String.intercalate ","
          ((List.range n).map fun i =>
            s ++ "-" ++ toString i ++ "=https://" ++ s ++ "-" ++ toString i ++
              "." ++ v ++ "." ++ nsp ++ ".svc:2380")) ∧
    (∀ (ncSpec : NestedComponentSpec) (ncKind : ComponentKind)
        (clusterName nspace : String) (sts sts' : StatefulSet),
        ncKind ≠ ComponentKind.Etcd →
        genStatefulSetMerge ncSpec ncKind clusterName nspace sts =
          GoResult.ok sts' →
        sts'.containers.map Container.args =
          sts.containers.map Container.args) := by
  refine ⟨?_, fun n s v nsp => rfl, ?_⟩
  · intro ncSpec clusterName nspace sts sts' c rest hc hni h
    have hc2 : (applyReplicas ncSpec (applyResources ncSpec sts)).containers =
        { c with resources := ncSpec.resources } ::
          rest.map (fun r => { r with resources := ncSpec.resources }) := by
      rw [applyReplicas_containers]
      simp [applyResources, hc]
    unfold genStatefulSetMerge at h
    rw [applyInitialCluster_cons clusterName nspace _ _ _ hc2] at h
    simp only [GoResult.ok.injEq] at h
    subst h
    refine ⟨_, _, rfl, rfl, ?_⟩
    show (({ c with resources := ncSpec.resources } : Container).args ++
      ["--initial-cluster",
       genInitialClusterArgs 1 clusterName clusterName nspace]).count
        "--initial-cluster" = 1
    rw [List.count_append]
    rw [List.count_eq_zero.2 hni]
    simp [List.count_cons,
      genInitialClusterArgs_one_ne_flag clusterName clusterName nspace]
  · intro ncSpec ncKind clusterName nspace sts sts' hk h
    unfold genStatefulSetMerge applyInitialCluster at h
    rw [if_neg hk] at h
    simp only [GoResult.ok.injEq] at h
    subst h
    rw [applyReplicas_containers]
    show (sts.containers.map fun c =>
        { c with resources := ncSpec.resources }).map Container.args =
      sts.containers.map Container.args
    rw [List.map_map]
    rfl

/-- The concrete result of merging `cSpec3` into the etcd template for
cluster `demo` in namespace `ns1`. -/
def cMergedEtcd : StatefulSet :=
  { replicas := some 3,
    containers :=
      [{ image := "etcd",
         args := ["--data-dir=/var/lib/etcd", "--initial-cluster",
           genInitialClusterArgs 1 "demo" "demo" "ns1"],
         resources := cRes }],
    ownerReferences := [] }

/-- The single container of the concrete template `cTemplateSts`. -/
def cTemplateContainer : Container :=
  { image := "etcd",
    args := ["--data-dir=/var/lib/etcd"],
    resources := { limits := [("memory", "1Gi")], requests := [] } }

/-- Witness for C4: merging the concrete etcd template for cluster `demo`
in namespace `ns1` yields a first container whose arguments carry exactly
one `--initial-cluster` flag with the expected single-seed peer value. -/
theorem genStatefulSetMerge_initial_cluster_witness :
    ∃ c2 rest2, cMergedEtcd.containers = c2 :: rest2 ∧
      c2.args = cTemplateContainer.args ++
        ["--initial-cluster", genInitialClusterArgs 1 "demo" "demo" "ns1"] ∧
      c2.args.count "--initial-cluster" = 1 :=
  genStatefulSetMerge_initial_cluster.1 cSpec3 "demo" "ns1" cTemplateSts
    cMergedEtcd cTemplateContainer [] (by decide) (by decide) (by decide)

/-- A concrete owning resource identity. -/
def cMeta : ObjectMeta := { name := "nc", nspace := "ns1", uid := "uid-1" }

/-- A concrete ComponentSpec with only the channel set. -/
def cSpecChannel : NestedComponentSpec :=
  { version := "", channel := "stable", replicas := 0,
    resources := { limits := [], requests := [] }, patches := [] }

/-- A concrete ComponentSpec with both version and channel set. -/
def cSpecVC : NestedComponentSpec :=
  { version := "1.2.3", channel := "stable", replicas := 0,
    resources := { limits := [], requests := [] }, patches := [] }

/-- A concrete byte fetcher returning a fixed well-formed template. -/
def cFetch : String → Except String String := fun _ => Except.ok "kind: x"

/-- A concrete decoder producing the fixture template StatefulSet. -/
def cDecodeSts : String → Except String StatefulSet :=
  fun _ => Except.ok cTemplateSts

/-- A concrete decoder producing a fixture Service. -/
def cDecodeSvc : String → Except String Service :=
  fun _ => Except.ok { ownerReferences := [] }

/-- An object store that accepts every create call. -/
def cCreateOk {α : Type} : α → Option Err := fun _ => none

/-- An object store that reports AlreadyExists on every create call. -/
def cCreateAE {α : Type} : α → Option Err := fun _ => some Err.alreadyExists

/-- Counterexample for C2: with both version and channel set, template
resolution does not return an error to the caller at all — the generation
step panics with `NOT IMPLEMENT YET`. -/
theorem genStatefulSetObject_version_channel_counterexample :
    genStatefulSetObject "t" cMeta cSpecVC ComponentKind.APIServer "cp"
      "demo" cFetch cDecodeSts = GoResult.panicked "NOT IMPLEMENT YET" ∧
    (genStatefulSetObject "t" cMeta cSpecVC ComponentKind.APIServer "cp"
      "demo" cFetch cDecodeSts).isErr = false := by
  exact ⟨rfl, rfl⟩

/-- C2 (amended): whenever version or channel is set on the ComponentSpec,
`genStatefulSetObject` reaches no template fallback and returns no error:
it panics with `NOT IMPLEMENT YET`, for every kind, fetcher and decoder. -/
theorem genStatefulSetObject_version_channel_panics
    (templatePath : String) (ncMeta : ObjectMeta)
    (ncSpec : NestedComponentSpec) (ncKind : ComponentKind)
    (controlPlaneName clusterName : String)
    (fetch : String → Except String String)
    (decodeSts : String → Except String StatefulSet)
    (h : ncSpec.version ≠ "" ∨ ncSpec.channel ≠ "") :
    genStatefulSetObject templatePath ncMeta ncSpec ncKind controlPlaneName
      clusterName fetch decodeSts = GoResult.panicked "NOT IMPLEMENT YET" := by
  have hr : resolveStatefulSetTemplateURL templatePath ncSpec ncKind =
      GoResult.panicked "NOT IMPLEMENT YET" := by
    unfold resolveStatefulSetTemplateURL
    rw [if_neg]
    intro hvc
    rcases h with h | h
    · exact h hvc.1
    · exact h hvc.2
  unfold genStatefulSetObject
  rw [hr]

/-- Witness for C2 (amended): at a concrete spec with only the channel set,
the generation step panics. -/
theorem genStatefulSetObject_version_channel_panics_witness :
    genStatefulSetObject "t" cMeta cSpecChannel ComponentKind.Etcd "cp"
      "demo" cFetch cDecodeSts = GoResult.panicked "NOT IMPLEMENT YET" :=
  genStatefulSetObject_version_channel_panics "t" cMeta cSpecChannel
    ComponentKind.Etcd "cp" "demo" cFetch cDecodeSts (Or.inr (by decide))

/-- C5: Every object handed to the object store by a run of
`createNestedComponentSts` carries exactly one owner reference, the
controller reference to the requesting resource's metadata;
`SetOwnerReferences` is wholesale replacement, so binding a second time
with the same owner leaves the same single reference. -/
theorem createNested_single_owner_reference (ncMeta : ObjectMeta)
    (ncSpec : NestedComponentSpec) (ncKind : ComponentKind)
    (controlPlaneName clusterName templatePath : String)
    (fetch : String → Except String String)
    (decodeSts : String → Except String StatefulSet)
    (decodeSvc : String → Except String Service)
    (createSvc : Service → Option Err) (createSts : StatefulSet → Option Err)
    (writes : List StoreWrite) (res : GoResult Unit)
    (hrun : createNestedComponentSts ncMeta ncSpec ncKind controlPlaneName
      clusterName templatePath fetch decodeSts decodeSvc createSvc
      createSts = (writes, res)) :
    (∀ w ∈ writes, w.ownerRefs = [NewControllerRef ncMeta ncKind.str]) ∧
    (∀ (m : ObjectMeta) (k : String), (NewControllerRef m k).name = m.name ∧
      (NewControllerRef m k).uid = m.uid) ∧
    (∀ (s : StatefulSet) (r : OwnerReference),
      (s.setOwnerReferences [r]).setOwnerReferences [r] =
        s.setOwnerReferences [r] ∧
      (s.setOwnerReferences [r]).ownerReferences.length = 1) ∧
    (∀ (s : Service) (r : OwnerReference),
      (s.setOwnerReferences [r]).setOwnerReferences [r] =
        s.setOwnerReferences [r] ∧
      (s.setOwnerReferences [r]).ownerReferences.length = 1) := by
  refine ⟨?_, fun m k => ⟨rfl, rfl⟩, fun s r => ⟨rfl, rfl⟩,
    fun s r => ⟨rfl, rfl⟩⟩
  intro w hw
  unfold createNestedComponentSts at hrun
  by_cases hvc : ncSpec.version ≠ "" ∧ ncSpec.channel ≠ ""
  · rw [if_pos hvc] at hrun
    cases hrun
    simp at hw
  · rw [if_neg hvc] at hrun
    rcases hg : genStatefulSetObject templatePath ncMeta ncSpec ncKind
        controlPlaneName clusterName fetch decodeSts with ncSts | e | m <;>
      simp only [hg] at hrun
    · by_cases hcm : ncKind ≠ ComponentKind.ControllerManager
      · rw [if_pos hcm] at hrun
        rcases hs : genServiceObject templatePath ncMeta ncSpec ncKind
            controlPlaneName clusterName fetch decodeSvc with
          ncSvc0 | e | m <;> simp only [hs] at hrun
        · rcases hc : createSvc (ncSvc0.setOwnerReferences
              [NewControllerRef ncMeta ncKind.str]) with _ | e <;>
            simp only [hc] at hrun
          · cases hrun
            simp only [List.mem_cons, List.not_mem_nil, or_false] at hw
            rcases hw with rfl | rfl <;> rfl
          · cases hrun
            simp only [List.mem_cons, List.not_mem_nil, or_false] at hw
            rcases hw with rfl
            rfl
        · cases hrun
          simp at hw
        · cases hrun
          simp at hw
      · rw [if_neg hcm] at hrun
        cases hrun
        simp only [List.mem_cons, List.not_mem_nil, or_false] at hw
        rcases hw with rfl
        rfl
    · cases hrun
      simp at hw
    · cases hrun
      simp at hw

/-- C9: In every run of `createNestedComponentSts` for a kind that requires
a network endpoint, if the StatefulSet was handed to the object store at
all then the writes were exactly the Service first and the StatefulSet
second; the workload is never created ahead of its endpoint. -/
theorem createNested_service_written_before_sts (ncMeta : ObjectMeta)
    (ncSpec : NestedComponentSpec) (ncKind : ComponentKind)
    (controlPlaneName clusterName templatePath : String)
    (fetch : String → Except String String)
    (decodeSts : String → Except String StatefulSet)
    (decodeSvc : String → Except String Service)
    (createSvc : Service → Option Err) (createSts : StatefulSet → Option Err)
    (writes : List StoreWrite) (res : GoResult Unit)
    (hrun : createNestedComponentSts ncMeta ncSpec ncKind controlPlaneName
      clusterName templatePath fetch decodeSts decodeSvc createSvc
      createSts = (writes, res))
    (hk : ncKind ≠ ComponentKind.ControllerManager)
    (x : StatefulSet) (hx : StoreWrite.sts x ∈ writes) :
    ∃ v, writes = [StoreWrite.svc v, StoreWrite.sts x] := by
  unfold createNestedComponentSts at hrun
  by_cases hvc : ncSpec.version ≠ "" ∧ ncSpec.channel ≠ ""
  · rw [if_pos hvc] at hrun
    cases hrun
    simp at hx
  · rw [if_neg hvc] at hrun
    rcases hg : genStatefulSetObject templatePath ncMeta ncSpec ncKind
        controlPlaneName clusterName fetch decodeSts with ncSts | e | m <;>
      simp only [hg] at hrun
    · rw [if_pos hk] at hrun
      rcases hs : genServiceObject templatePath ncMeta ncSpec ncKind
          controlPlaneName clusterName fetch decodeSvc with
        ncSvc0 | e | m <;> simp only [hs] at hrun
      · rcases hc : createSvc (ncSvc0.setOwnerReferences
            [NewControllerRef ncMeta ncKind.str]) with _ | e <;>
          simp only [hc] at hrun
        · cases hrun
          simp only [List.mem_cons, List.not_mem_nil, or_false] at hx
          rcases hx with hx | hx
          · exact absurd hx (by simp)
          · simp only [StoreWrite.sts.injEq] at hx
            subst hx
            exact ⟨_, rfl⟩
        · cases hrun
          simp at hx
      · cases hrun
        simp at hx
      · cases hrun
        simp at hx
    · cases hrun
      simp at hx
    · cases hrun
      simp at hx

/-- C7: On a successful run of `createNestedComponentSts`, a Service was
handed to the object store if and only if the kind is not the controller
manager; for the controller-manager kind the only write is the
StatefulSet. -/
theorem createNested_service_iff_kind (ncMeta : ObjectMeta)
    (ncSpec : NestedComponentSpec) (ncKind : ComponentKind)
    (controlPlaneName clusterName templatePath : String)
    (fetch : String → Except String String)
    (decodeSts : String → Except String StatefulSet)
    (decodeSvc : String → Except String Service)
    (createSvc : Service → Option Err) (createSts : StatefulSet → Option Err)
    (writes : List StoreWrite) (res : GoResult Unit)
    (hrun : createNestedComponentSts ncMeta ncSpec ncKind controlPlaneName
      clusterName templatePath fetch decodeSts decodeSvc createSvc
      createSts = (writes, res))
    (hok : res = GoResult.ok ()) :
    ((writes.any StoreWrite.isSvc) = true ↔
      ncKind ≠ ComponentKind.ControllerManager) ∧
    (ncKind = ComponentKind.ControllerManager →
      ∃ x, writes = [StoreWrite.sts x]) := by
  unfold createNestedComponentSts at hrun
  by_cases hvc : ncSpec.version ≠ "" ∧ ncSpec.channel ≠ ""
  · rw [if_pos hvc] at hrun
    cases hrun
    simp at hok
  · rw [if_neg hvc] at hrun
    rcases hg : genStatefulSetObject templatePath ncMeta ncSpec ncKind
        controlPlaneName clusterName fetch decodeSts with ncSts | e | m <;>
      simp only [hg] at hrun
    · by_cases hcm : ncKind ≠ ComponentKind.ControllerManager
      · rw [if_pos hcm] at hrun
        rcases hs : genServiceObject templatePath ncMeta ncSpec ncKind
            controlPlaneName clusterName fetch decodeSvc with
          ncSvc0 | e | m <;> simp only [hs] at hrun
        · rcases hc : createSvc (ncSvc0.setOwnerReferences
              [NewControllerRef ncMeta ncKind.str]) with _ | e <;>
            simp only [hc] at hrun
          · cases hrun
            refine ⟨?_, fun hcm2 => absurd hcm2 hcm⟩
            simp [List.any, StoreWrite.isSvc, hcm]
          · cases hrun
            simp at hok
        · cases hrun
          simp at hok
        · cases hrun
          simp at hok
      · rw [if_neg hcm] at hrun
        cases hrun
        push_neg at hcm
        refine ⟨?_, fun _ => ⟨_, rfl⟩⟩
        simp [List.any, StoreWrite.isSvc, hcm]
    · cases hrun
      simp at hok
    · cases hrun
      simp at hok

/-- C8 (amended): whenever `createNestedComponentSts` hands an object to
the store and the store answers AlreadyExists, the function returns that
AlreadyExists error verbatim to its caller rather than treating the
condition as success. -/
theorem createNested_already_exists_propagated (ncMeta : ObjectMeta)
    (ncSpec : NestedComponentSpec) (ncKind : ComponentKind)
    (controlPlaneName clusterName templatePath : String)
    (fetch : String → Except String String)
    (decodeSts : String → Except String StatefulSet)
    (decodeSvc : String → Except String Service)
    (createSvc : Service → Option Err) (createSts : StatefulSet → Option Err)
    (writes : List StoreWrite) (res : GoResult Unit)
    (hrun : createNestedComponentSts ncMeta ncSpec ncKind controlPlaneName
      clusterName templatePath fetch decodeSts decodeSvc createSvc
      createSts = (writes, res)) :
    (∀ x, StoreWrite.sts x ∈ writes →
      createSts x = some Err.alreadyExists →
      res = GoResult.err Err.alreadyExists) ∧
    (∀ v, StoreWrite.svc v ∈ writes →
      createSvc v = some Err.alreadyExists →
      res = GoResult.err Err.alreadyExists) := by
  unfold createNestedComponentSts at hrun
  by_cases hvc : ncSpec.version ≠ "" ∧ ncSpec.channel ≠ ""
  · rw [if_pos hvc] at hrun
    cases hrun
    exact ⟨fun x hx => absurd hx (by simp), fun v hv => absurd hv (by simp)⟩
  · rw [if_neg hvc] at hrun
    rcases hg : genStatefulSetObject templatePath ncMeta ncSpec ncKind
        controlPlaneName clusterName fetch decodeSts with ncSts | e | m <;>
      simp only [hg] at hrun
    · by_cases hcm : ncKind ≠ ComponentKind.ControllerManager
      · rw [if_pos hcm] at hrun
        rcases hs : genServiceObject templatePath ncMeta ncSpec ncKind
            controlPlaneName clusterName fetch decodeSvc with
          ncSvc0 | e | m <;> simp only [hs] at hrun
        · rcases hc : createSvc (ncSvc0.setOwnerReferences
              [NewControllerRef ncMeta ncKind.str]) with _ | e <;>
            simp only [hc] at hrun
          · cases hrun
            constructor
            · intro x hx hcs
              simp only [List.mem_cons, List.not_mem_nil, or_false] at hx
              rcases hx with hx | hx
              · exact absurd hx (by simp)
              · simp only [StoreWrite.sts.injEq] at hx
                subst hx
                rw [hcs]
            · intro v hv hc2
              simp only [List.mem_cons, List.not_mem_nil, or_false] at hv
              rcases hv with hv | hv
              · simp only [StoreWrite.svc.injEq] at hv
                subst hv
                rw [hc] at hc2
                simp at hc2
              · exact absurd hv (by simp)
          · cases hrun
            constructor
            · intro x hx hcs
              simp only [List.mem_cons, List.not_mem_nil, or_false] at hx
              exact absurd hx (by simp)
            · intro v hv hc2
              simp only [List.mem_cons, List.not_mem_nil, or_false] at hv
              simp only [StoreWrite.svc.injEq] at hv
              subst hv
              rw [hc] at hc2
              simp only [Option.some.injEq] at hc2
              rw [hc2]
        · cases hrun
          exact ⟨fun x hx => absurd hx (by simp),
            fun v hv => absurd hv (by simp)⟩
        · cases hrun
          exact ⟨fun x hx => absurd hx (by simp),
            fun v hv => absurd hv (by simp)⟩
      · rw [if_neg hcm] at hrun
        cases hrun
        constructor
        · intro x hx hcs
          simp only [List.mem_cons, List.not_mem_nil, or_false] at hx
          simp only [StoreWrite.sts.injEq] at hx
          subst hx
          rw [hcs]
        · intro v hv
          exact absurd hv (by simp)
    · cases hrun
      exact ⟨fun x hx => absurd hx (by simp), fun v hv => absurd hv (by simp)⟩
    · cases hrun
      exact ⟨fun x hx => absurd hx (by simp), fun v hv => absurd hv (by simp)⟩

/-- The Service handed to the store in the concrete successful etcd run. -/
def cSvcObj : Service :=
  { ownerReferences := [NewControllerRef cMeta ComponentKind.Etcd.str] }

/-- The StatefulSet handed to the store in the concrete successful etcd
run. -/
def cStsObj : StatefulSet :=
  cMergedEtcd.setOwnerReferences [NewControllerRef cMeta ComponentKind.Etcd.str]

/-- The write trace of the concrete successful etcd run. -/
def cWrites : List StoreWrite :=
  [StoreWrite.svc cSvcObj, StoreWrite.sts cStsObj]

/-- Witness for C5: in the concrete successful etcd run, the Service handed
to the store carries exactly the single controller owner reference. -/
theorem createNested_single_owner_reference_witness :
    (StoreWrite.svc cSvcObj).ownerRefs =
      [NewControllerRef cMeta ComponentKind.Etcd.str] :=
  (createNested_single_owner_reference cMeta cSpec3 ComponentKind.Etcd
    "cp" "demo" "t" cFetch cDecodeSts cDecodeSvc cCreateOk cCreateOk
    cWrites (GoResult.ok ()) (by decide)).1 (StoreWrite.svc cSvcObj)
    (by decide)

/-- Witness for C7: the concrete successful etcd run wrote a Service, and
the etcd kind is indeed not the controller manager. -/
theorem createNested_service_iff_kind_witness :
    (cWrites.any StoreWrite.isSvc = true ↔
      ComponentKind.Etcd ≠ ComponentKind.ControllerManager) ∧
    (ComponentKind.Etcd = ComponentKind.ControllerManager →
      ∃ x, cWrites = [StoreWrite.sts x]) :=
  createNested_service_iff_kind cMeta cSpec3 ComponentKind.Etcd
    "cp" "demo" "t" cFetch cDecodeSts cDecodeSvc cCreateOk cCreateOk
    cWrites (GoResult.ok ()) (by decide) rfl

/-- Witness for C9: in the concrete successful etcd run, the writes are
exactly the Service first and the StatefulSet second. -/
theorem createNested_service_written_before_sts_witness :
    ∃ v, cWrites = [StoreWrite.svc v, StoreWrite.sts cStsObj] :=
  createNested_service_written_before_sts cMeta cSpec3 ComponentKind.Etcd
    "cp" "demo" "t" cFetch cDecodeSts cDecodeSvc cCreateOk cCreateOk
    cWrites (GoResult.ok ()) (by decide) (by decide) cStsObj (by decide)

/-- Counterexample for C8: in a concrete run where the object store answers
AlreadyExists to the StatefulSet create, `createNestedComponentSts` does
not return success — it returns the AlreadyExists error to its caller. -/
theorem createNested_already_exists_counterexample :
    (createNestedComponentSts cMeta cSpec0 ComponentKind.ControllerManager
      "cp" "demo" "t" cFetch cDecodeSts cDecodeSvc cCreateOk cCreateAE).2 =
      GoResult.err Err.alreadyExists ∧
    (createNestedComponentSts cMeta cSpec0 ComponentKind.ControllerManager
      "cp" "demo" "t" cFetch cDecodeSts cDecodeSvc cCreateOk cCreateAE).2 ≠
      GoResult.ok () := by
  exact ⟨by decide, by decide⟩

/-- The StatefulSet handed to the store in the concrete controller-manager
run with empty overrides. -/
def cStsObjCM : StatefulSet :=
  { replicas := some 1,
    containers :=
      [{ image := "etcd",
         args := ["--data-dir=/var/lib/etcd"],
         resources := { limits := [], requests := [] } }],
    ownerReferences :=
      [NewControllerRef cMeta ComponentKind.ControllerManager.str] }

/-- Witness for C8 (amended): in the concrete AlreadyExists run the
returned result is exactly the store's AlreadyExists error. -/
theorem createNested_already_exists_propagated_witness :
    (createNestedComponentSts cMeta cSpec0 ComponentKind.ControllerManager
      "cp" "demo" "t" cFetch cDecodeSts cDecodeSvc cCreateOk cCreateAE).2 =
      GoResult.err Err.alreadyExists :=
  (createNested_already_exists_propagated cMeta cSpec0
    ComponentKind.ControllerManager "cp" "demo" "t" cFetch cDecodeSts
    cDecodeSvc cCreateOk cCreateAE
    (createNestedComponentSts cMeta cSpec0 ComponentKind.ControllerManager
      "cp" "demo" "t" cFetch cDecodeSts cDecodeSvc cCreateOk cCreateAE).1
    (createNestedComponentSts cMeta cSpec0 ComponentKind.ControllerManager
      "cp" "demo" "t" cFetch cDecodeSts cDecodeSvc cCreateOk cCreateAE).2
    rfl).1 cStsObjCM (by decide) (by decide)
